import Mathlib

/-!
Verification of the RD (Rijksdriehoekscoördinaten) to WGS84 converter
`rd_to_wgs84` from `app.py`.

The source function is pure arithmetic over Python floats; it is embedded
here over `ℚ` (exact arithmetic, faithful to the real-number reading of the
algorithm).  The coefficient tables, the normalization, the accumulation
loops and the final division by 3600 are transcribed directly from the
source.
-/

namespace WijkApp

/-- RD reference x coordinate (`x0 = 155000.0` in the source). -/
def x0 : ℚ := 155000.0

/-- RD reference y coordinate (`y0 = 463000.0` in the source). -/
def y0 : ℚ := 463000.0

/-- Exponents of dx in the latitude series (`Kp` in the source). -/
def Kp : List ℕ := [0, 2, 0, 2, 0, 2, 1, 4, 2, 4, 1]

/-- Exponents of dy in the latitude series (`Kq` in the source). -/
def Kq : List ℕ := [1, 0, 2, 1, 3, 2, 0, 0, 3, 1, 1]

/-- Coefficients of the latitude series (`Kpq` in the source). -/
def Kpq : List ℚ := [3235.65389, -32.58297, -0.24750, -0.84978, -0.06550, -0.01709,
  -0.00738, 0.00530, -0.00039, 0.00033, -0.00012]

/-- Exponents of dx in the longitude series (`Lp` in the source). -/
def Lp : List ℕ := [1, 1, 1, 3, 1, 3, 0, 3, 1, 0, 2, 5]

/-- Exponents of dy in the longitude series (`Lq` in the source). -/
def Lq : List ℕ := [0, 1, 2, 0, 3, 1, 1, 2, 4, 2, 0, 0]

/-- Coefficients of the longitude series (`Lpq` in the source). -/
def Lpq : List ℚ := [5260.52916, 105.94684, 2.45656, -0.81885, 0.05594, -0.05607,
  0.01199, -0.00256, 0.00128, 0.00022, -0.00022, 0.00026]

/-- WGS84 reference latitude (`phi0 = 52.15517440` in the source). -/
def phi0 : ℚ := 52.15517440

/-- WGS84 reference longitude (`lambda0 = 5.38720621` in the source). -/
def lambda0 : ℚ := 5.38720621

/-- One term of a series: `cs[k] * (dx ** ps[k]) * (dy ** qs[k])` in the source
loops.  A zero exponent yields the factor `1`, also at base `0`, exactly as
Python's `**` on floats. -/
def seriesTerm (c : ℚ) (p q : ℕ) (dx dy : ℚ) : ℚ := c * dx ^ p * dy ^ q

/-- The accumulation loop
`for k in range(len(cs)): acc += cs[k] * (dx ** ps[k]) * (dy ** qs[k])`:
terms are added to the accumulator in index order. -/
def seriesLoop : List ℕ → List ℕ → List ℚ → ℚ → ℚ → ℚ → ℚ
  | p :: ps, q :: qs, c :: cs, dx, dy, acc =>
      seriesLoop ps qs cs dx dy (acc + seriesTerm c p q dx dy)
  | _, _, _, _, _, acc => acc

/-- Shallow embedding of `rd_to_wgs84(x, y)` from `app.py` (lines 74-115):
normalize, accumulate each series into a variable initialized to the WGS84
reference component, then divide the whole accumulator by 3600. -/
def rd_to_wgs84 (x y : ℚ) : ℚ × ℚ :=
  let dx := (x - x0) * 1e-5
  let dy := (y - y0) * 1e-5
  let phi := seriesLoop Kp Kq Kpq dx dy phi0
  let phiDeg := phi / 3600
  let lam := seriesLoop Lp Lq Lpq dx dy lambda0
  let lamDeg := lam / 3600
  (phiDeg, lamDeg)

/-- Closed polynomial form of the latitude accumulation loop. -/
lemma latLoop_eq (dx dy a : ℚ) :
    seriesLoop Kp Kq Kpq dx dy a =
      a + 3235.65389 * dy - 32.58297 * dx ^ 2 - 0.24750 * dy ^ 2
        - 0.84978 * dx ^ 2 * dy - 0.06550 * dy ^ 3 - 0.01709 * dx ^ 2 * dy ^ 2
        - 0.00738 * dx + 0.00530 * dx ^ 4 - 0.00039 * dx ^ 2 * dy ^ 3
        + 0.00033 * dx ^ 4 * dy - 0.00012 * dx * dy := by
  simp [Kp, Kq, Kpq, seriesLoop, seriesTerm]
  ring

/-- Closed polynomial form of the longitude accumulation loop. -/
lemma lonLoop_eq (dx dy a : ℚ) :
    seriesLoop Lp Lq Lpq dx dy a =
      a + 5260.52916 * dx + 105.94684 * dx * dy + 2.45656 * dx * dy ^ 2
        - 0.81885 * dx ^ 3 + 0.05594 * dx * dy ^ 3 - 0.05607 * dx ^ 3 * dy
        + 0.01199 * dy - 0.00256 * dx ^ 3 * dy ^ 2 + 0.00128 * dx * dy ^ 4
        + 0.00022 * dy ^ 2 - 0.00022 * dx ^ 2 + 0.00026 * dx ^ 5 := by
  simp [Lp, Lq, Lpq, seriesLoop, seriesTerm]
  ring

/-- Closed form of the full converter, for use in the numeric proofs. -/
lemma rd_to_wgs84_eq (x y : ℚ) :
    rd_to_wgs84 x y =
      ((phi0 + 3235.65389 * ((y - y0) * 1e-5) - 32.58297 * ((x - x0) * 1e-5) ^ 2
          - 0.24750 * ((y - y0) * 1e-5) ^ 2
          - 0.84978 * ((x - x0) * 1e-5) ^ 2 * ((y - y0) * 1e-5)
          - 0.06550 * ((y - y0) * 1e-5) ^ 3
          - 0.01709 * ((x - x0) * 1e-5) ^ 2 * ((y - y0) * 1e-5) ^ 2
          - 0.00738 * ((x - x0) * 1e-5) + 0.00530 * ((x - x0) * 1e-5) ^ 4
          - 0.00039 * ((x - x0) * 1e-5) ^ 2 * ((y - y0) * 1e-5) ^ 3
          + 0.00033 * ((x - x0) * 1e-5) ^ 4 * ((y - y0) * 1e-5)
          - 0.00012 * ((x - x0) * 1e-5) * ((y - y0) * 1e-5)) / 3600,
       (lambda0 + 5260.52916 * ((x - x0) * 1e-5)
          + 105.94684 * ((x - x0) * 1e-5) * ((y - y0) * 1e-5)
          + 2.45656 * ((x - x0) * 1e-5) * ((y - y0) * 1e-5) ^ 2
          - 0.81885 * ((x - x0) * 1e-5) ^ 3
          + 0.05594 * ((x - x0) * 1e-5) * ((y - y0) * 1e-5) ^ 3
          - 0.05607 * ((x - x0) * 1e-5) ^ 3 * ((y - y0) * 1e-5)
          + 0.01199 * ((y - y0) * 1e-5)
          - 0.00256 * ((x - x0) * 1e-5) ^ 3 * ((y - y0) * 1e-5) ^ 2
          + 0.00128 * ((x - x0) * 1e-5) * ((y - y0) * 1e-5) ^ 4
          + 0.00022 * ((y - y0) * 1e-5) ^ 2 - 0.00022 * ((x - x0) * 1e-5) ^ 2
          + 0.00026 * ((x - x0) * 1e-5) ^ 5) / 3600) := by
  simp only [rd_to_wgs84]
  rw [latLoop_eq, lonLoop_eq]

/-- Spec formulation of the latitude series: the sum of the 11 terms
`Kpq[k] * dx^Kp[k] * dy^Kq[k]`, written as an indexed sum. -/
def latSeriesSum (dx dy : ℚ) : ℚ :=
  ∑ k ∈ Finset.range 11, Kpq.getD k 0 * dx ^ Kp.getD k 0 * dy ^ Kq.getD k 0

/-- Spec formulation of the longitude series: the sum of the 12 terms
`Lpq[k] * dx^Lp[k] * dy^Lq[k]`, written as an indexed sum. -/
def lonSeriesSum (dx dy : ℚ) : ℚ :=
  ∑ k ∈ Finset.range 12, Lpq.getD k 0 * dx ^ Lp.getD k 0 * dy ^ Lq.getD k 0

/-- Closed polynomial form of the spec-side latitude sum. -/
lemma latSeriesSum_eq (dx dy : ℚ) :
    latSeriesSum dx dy =
      3235.65389 * dy - 32.58297 * dx ^ 2 - 0.24750 * dy ^ 2
        - 0.84978 * dx ^ 2 * dy - 0.06550 * dy ^ 3 - 0.01709 * dx ^ 2 * dy ^ 2
        - 0.00738 * dx + 0.00530 * dx ^ 4 - 0.00039 * dx ^ 2 * dy ^ 3
        + 0.00033 * dx ^ 4 * dy - 0.00012 * dx * dy := by
  simp [latSeriesSum, Finset.sum_range_succ, Kp, Kq, Kpq]
  ring

/-- Closed polynomial form of the spec-side longitude sum. -/
lemma lonSeriesSum_eq (dx dy : ℚ) :
    lonSeriesSum dx dy =
      5260.52916 * dx + 105.94684 * dx * dy + 2.45656 * dx * dy ^ 2
        - 0.81885 * dx ^ 3 + 0.05594 * dx * dy ^ 3 - 0.05607 * dx ^ 3 * dy
        + 0.01199 * dy - 0.00256 * dx ^ 3 * dy ^ 2 + 0.00128 * dx * dy ^ 4
        + 0.00022 * dy ^ 2 - 0.00022 * dx ^ 2 + 0.00026 * dx ^ 5 := by
  simp [lonSeriesSum, Finset.sum_range_succ, Lp, Lq, Lpq]
  ring

/-- Spec formulation of the whole algorithm of §4.1, transcribed from the
spec text: normalize by the reference point and 1e-5, add each indexed
series sum to the WGS84 reference component, divide the entire sum by
3600. -/
def spec_convert (x y : ℚ) : ℚ × ℚ :=
  let dx := (x - 155000.0) * 1e-5
  let dy := (y - 463000.0) * 1e-5
  ((52.15517440 + latSeriesSum dx dy) / 3600,
   (5.38720621 + lonSeriesSum dx dy) / 3600)

/-- The standard Kadaster combination: reference point plus the series
correction converted from arc-seconds to degrees (division applied to the
series sum alone). -/
def kadaster_std (x y : ℚ) : ℚ × ℚ :=
  let dx := (x - x0) * 1e-5
  let dy := (y - y0) * 1e-5
  (phi0 + seriesLoop Kp Kq Kpq dx dy 0 / 3600,
   lambda0 + seriesLoop Lp Lq Lpq dx dy 0 / 3600)

/-- C1: for every input `(x, y)` the division by 3600 applies to the entire
accumulated value: the latitude returned is `(phi0 + latitude series sum) / 3600`
with `phi0 = 52.15517440`, and the longitude returned is
`(lambda0 + longitude series sum) / 3600` with `lambda0 = 5.38720621`; the
division is never applied to the series sum alone. -/
theorem div3600_on_full_accumulator (x y : ℚ) :
    (rd_to_wgs84 x y).1 =
      (52.15517440 + latSeriesSum ((x - 155000.0) * 1e-5) ((y - 463000.0) * 1e-5)) / 3600 ∧
    (rd_to_wgs84 x y).2 =
      (5.38720621 + lonSeriesSum ((x - 155000.0) * 1e-5) ((y - 463000.0) * 1e-5)) / 3600 := by
  rw [rd_to_wgs84_eq, latSeriesSum_eq, lonSeriesSum_eq]
  simp only [x0, y0, phi0, lambda0]
  constructor <;> ring

/-- C2: `rd_to_wgs84` computes exactly the spec's algorithm: the
normalization `dx = (x - 155000.0) * 1e-5`, `dy = (y - 463000.0) * 1e-5`
and the 11-term latitude and 12-term longitude series with the tabulated
exponents and coefficients. -/
theorem rd_to_wgs84_eq_spec_convert (x y : ℚ) :
    rd_to_wgs84 x y = spec_convert x y := by
  rw [rd_to_wgs84_eq]
  simp only [spec_convert, latSeriesSum_eq, lonSeriesSum_eq, x0, y0, phi0, lambda0,
    Prod.mk.injEq]
  constructor <;> ring

/-- C3: at the exact RD reference point the converter returns exactly
`(52.15517440 / 3600, 5.38720621 / 3600)`: with `dx = dy = 0` every series
term vanishes, since no term has both exponents zero. -/
theorem reference_point_value :
    rd_to_wgs84 155000 463000 = (52.15517440 / 3600, 5.38720621 / 3600) := by
  rw [rd_to_wgs84_eq]
  norm_num [x0, y0, phi0, lambda0]

/-- C6: the converter is total: every rational input yields a defined pair,
and a series term with both exponents zero equals its coefficient for every
base, including zero (the `0 ** 0 = 1` convention of the source's `**`). -/
theorem rd_to_wgs84_total_and_pow_zero :
    (∀ x y : ℚ, ∃ p : ℚ × ℚ, rd_to_wgs84 x y = p) ∧
    (∀ c dx dy : ℚ, seriesTerm c 0 0 dx dy = c) ∧
    seriesTerm 1 0 0 0 0 = 1 := by
  refine ⟨fun x y => ⟨rd_to_wgs84 x y, rfl⟩, fun c dx dy => ?_, by simp [seriesTerm]⟩
  simp [seriesTerm]

/-- C7: the converter is deterministic and stateless: the result depends
only on the two arguments, so equal arguments give equal results. -/
theorem rd_to_wgs84_deterministic (x₁ y₁ x₂ y₂ : ℚ)
    (hx : x₁ = x₂) (hy : y₁ = y₂) :
    rd_to_wgs84 x₁ y₁ = rd_to_wgs84 x₂ y₂ := by
  rw [hx, hy]

/-- Witness for C7 at a concrete input. -/
theorem rd_to_wgs84_deterministic_witness :
    rd_to_wgs84 122700 487525 = rd_to_wgs84 122700 487525 :=
  rd_to_wgs84_deterministic 122700 487525 122700 487525 rfl rfl

/-- C9: the standard Kadaster value (reference point plus series correction
divided by 3600) differs from the code's output by an exact affine shift:
`phi0 * 3599 / 3600` in latitude and `lambda0 * 3599 / 3600` in longitude. -/
theorem kadaster_std_affine_shift (x y : ℚ) :
    (kadaster_std x y).1 = (rd_to_wgs84 x y).1 + 52.15517440 * (3599 / 3600) ∧
    (kadaster_std x y).2 = (rd_to_wgs84 x y).2 + 5.38720621 * (3599 / 3600) := by
  simp only [kadaster_std, rd_to_wgs84, latLoop_eq, lonLoop_eq, phi0, lambda0]
  constructor <;> ring

/-- C4 counterexample: at the published control point RD (122700, 487525)
the converter does not return values within 0.001 of (52.3731, 4.8922); the
latitude it returns is below 1. -/
theorem control_point_claim_fails :
    ¬ (|(rd_to_wgs84 122700 487525).1 - 52.3731| ≤ 0.001 ∧
       |(rd_to_wgs84 122700 487525).2 - 4.8922| ≤ 0.001) := by
  intro h
  have h1 := (abs_le.mp h.1).1
  have h2 : (rd_to_wgs84 122700 487525).1 < 1 := by
    rw [rd_to_wgs84_eq]
    norm_num [x0, y0, phi0, lambda0]
  linarith

/-- C4 amended: at RD (122700, 487525) the converter returns latitude
strictly between 0.2339 and 0.2340 and longitude strictly between -0.4729
and -0.4728. -/
theorem control_point_actual_value :
    0.2339 < (rd_to_wgs84 122700 487525).1 ∧ (rd_to_wgs84 122700 487525).1 < 0.2340 ∧
    -0.4729 < (rd_to_wgs84 122700 487525).2 ∧ (rd_to_wgs84 122700 487525).2 < -0.4728 := by
  rw [rd_to_wgs84_eq]
  norm_num [x0, y0, phi0, lambda0]

/-- C5: evaluation at the failing input (155000, 463000), inside the valid
RD extent: the returned latitude is below 50.7 and the returned longitude
is below 3.3, outside the Netherlands bounding box. -/
theorem netherlands_box_claim_fails :
    (rd_to_wgs84 155000 463000).1 < 50.7 ∧ (rd_to_wgs84 155000 463000).2 < 3.3 := by
  rw [rd_to_wgs84_eq]
  norm_num [x0, y0, phi0, lambda0]

/-- Unfolded form of `rd_to_wgs84` in terms of the accumulation loops. -/
lemma rd_to_wgs84_def (x y : ℚ) :
    rd_to_wgs84 x y =
      (seriesLoop Kp Kq Kpq ((x - x0) * 1e-5) ((y - y0) * 1e-5) phi0 / 3600,
       seriesLoop Lp Lq Lpq ((x - x0) * 1e-5) ((y - y0) * 1e-5) lambda0 / 3600) := rfl

set_option maxHeartbeats 2000000 in
/-- Interval bounds for the latitude accumulator on the RD extent
(`dx` in `[-31/20, 5/4]`, `dy` in `[-163/100, 81/50]`). -/
lemma latAcc_bounds (dx dy : ℚ) (h1 : -(31/20) ≤ dx) (h2 : dx ≤ 5/4)
    (h3 : -(163/100) ≤ dy) (h4 : dy ≤ 81/50) :
    -5410 ≤ seriesLoop Kp Kq Kpq dx dy phi0 ∧
      seriesLoop Kp Kq Kpq dx dy phi0 ≤ 5410 := by
  rw [latLoop_eq]
  simp only [phi0]
  have hdx : dx ≤ 31/20 := by linarith
  have hdy : dy ≤ 163/100 := by linarith
  have sx0 : 0 ≤ dx ^ 2 := sq_nonneg dx
  have sy0 : 0 ≤ dy ^ 2 := sq_nonneg dy
  have sx : dx ^ 2 ≤ 961/400 := by
    nlinarith [mul_nonneg (by linarith : (0:ℚ) ≤ dx + 31/20)
      (by linarith : (0:ℚ) ≤ 31/20 - dx)]
  have sy : dy ^ 2 ≤ 26569/10000 := by
    nlinarith [mul_nonneg (by linarith : (0:ℚ) ≤ dy + 163/100)
      (by linarith : (0:ℚ) ≤ 163/100 - dy)]
  have sx40 : 0 ≤ dx ^ 4 := by positivity
  have sx4 : dx ^ 4 ≤ 923521/160000 := by nlinarith [sx, sx0]
  have cy1 : dy ^ 3 ≤ 4330747/1000000 := by
    nlinarith [mul_nonneg (by linarith : (0:ℚ) ≤ 163/100 - dy) sy0, sy]
  have cy2 : -(4330747/1000000) ≤ dy ^ 3 := by
    nlinarith [mul_nonneg (by linarith : (0:ℚ) ≤ dy + 163/100) sy0, sy]
  have m1u : dx ^ 2 * dy ≤ 156643/40000 := by
    nlinarith [mul_nonneg (by linarith : (0:ℚ) ≤ 163/100 - dy) sx0, sx]
  have m1l : -(156643/40000) ≤ dx ^ 2 * dy := by
    nlinarith [mul_nonneg (by linarith : (0:ℚ) ≤ dy + 163/100) sx0, sx]
  have m2u : dx ^ 2 * dy ^ 2 ≤ 25532809/4000000 := by
    nlinarith [mul_nonneg (by linarith : (0:ℚ) ≤ 961/400 - dx ^ 2) sy0, sy]
  have m20 : 0 ≤ dx ^ 2 * dy ^ 2 := by positivity
  have m3u : dx ^ 2 * dy ^ 3 ≤ 4161847867/400000000 := by
    nlinarith [mul_nonneg sx0 (by linarith : (0:ℚ) ≤ 4330747/1000000 - dy ^ 3), sx]
  have m3l : -(4161847867/400000000) ≤ dx ^ 2 * dy ^ 3 := by
    nlinarith [mul_nonneg sx0 (by linarith : (0:ℚ) ≤ dy ^ 3 + 4330747/1000000), sx]
  have m4u : dx ^ 4 * dy ≤ 150533923/16000000 := by
    nlinarith [mul_nonneg sx40 (by linarith : (0:ℚ) ≤ 163/100 - dy), sx4]
  have m4l : -(150533923/16000000) ≤ dx ^ 4 * dy := by
    nlinarith [mul_nonneg sx40 (by linarith : (0:ℚ) ≤ dy + 163/100), sx4]
  have m5u : dx * dy ≤ 5053/2000 := by
    nlinarith [mul_nonneg (by linarith : (0:ℚ) ≤ 31/20 - dx)
        (by linarith : (0:ℚ) ≤ dy + 163/100),
      mul_nonneg (by linarith : (0:ℚ) ≤ dx + 31/20)
        (by linarith : (0:ℚ) ≤ 163/100 - dy)]
  have m5l : -(5053/2000) ≤ dx * dy := by
    nlinarith [mul_nonneg (by linarith : (0:ℚ) ≤ 31/20 - dx)
        (by linarith : (0:ℚ) ≤ 163/100 - dy),
      mul_nonneg (by linarith : (0:ℚ) ≤ dx + 31/20)
        (by linarith : (0:ℚ) ≤ dy + 163/100)]
  constructor <;>
    linarith [h1, h2, h3, h4, sx0, sy0, sx, sy, sx40, sx4, cy1, cy2,
      m1u, m1l, m2u, m20, m3u, m3l, m4u, m4l, m5u, m5l]

set_option maxHeartbeats 4000000 in
/-- Interval bounds for the longitude accumulator on the RD extent. -/
lemma lonAcc_bounds (dx dy : ℚ) (h1 : -(31/20) ≤ dx) (h2 : dx ≤ 5/4)
    (h3 : -(163/100) ≤ dy) (h4 : dy ≤ 81/50) :
    -8440 ≤ seriesLoop Lp Lq Lpq dx dy lambda0 ∧
      seriesLoop Lp Lq Lpq dx dy lambda0 ≤ 6870 := by
  rw [lonLoop_eq]
  simp only [lambda0]
  have hdx : dx ≤ 31/20 := by linarith
  have hdy : dy ≤ 163/100 := by linarith
  have sx0 : 0 ≤ dx ^ 2 := sq_nonneg dx
  have sy0 : 0 ≤ dy ^ 2 := sq_nonneg dy
  have sx : dx ^ 2 ≤ 961/400 := by
    nlinarith [mul_nonneg (by linarith : (0:ℚ) ≤ dx + 31/20)
      (by linarith : (0:ℚ) ≤ 31/20 - dx)]
  have sy : dy ^ 2 ≤ 26569/10000 := by
    nlinarith [mul_nonneg (by linarith : (0:ℚ) ≤ dy + 163/100)
      (by linarith : (0:ℚ) ≤ 163/100 - dy)]
  have sx40 : 0 ≤ dx ^ 4 := by positivity
  have sx4 : dx ^ 4 ≤ 923521/160000 := by nlinarith [sx, sx0]
  have sy40 : 0 ≤ dy ^ 4 := by positivity
  have sy4 : dy ^ 4 ≤ 705911761/100000000 := by nlinarith [sy, sy0]
  have cx1 : dx ^ 3 ≤ 29791/8000 := by
    nlinarith [mul_nonneg (by linarith : (0:ℚ) ≤ 31/20 - dx) sx0, sx]
  have cx2 : -(29791/8000) ≤ dx ^ 3 := by
    nlinarith [mul_nonneg (by linarith : (0:ℚ) ≤ dx + 31/20) sx0, sx]
  have cy1 : dy ^ 3 ≤ 4330747/1000000 := by
    nlinarith [mul_nonneg (by linarith : (0:ℚ) ≤ 163/100 - dy) sy0, sy]
  have cy2 : -(4330747/1000000) ≤ dy ^ 3 := by
    nlinarith [mul_nonneg (by linarith : (0:ℚ) ≤ dy + 163/100) sy0, sy]
  have qx1 : dx ^ 5 ≤ 28629151/3200000 := by
    nlinarith [mul_nonneg (by linarith : (0:ℚ) ≤ 31/20 - dx) sx40, sx4]
  have qx2 : -(28629151/3200000) ≤ dx ^ 5 := by
    nlinarith [mul_nonneg (by linarith : (0:ℚ) ≤ dx + 31/20) sx40, sx4]
  have m5u : dx * dy ≤ 5053/2000 := by
    nlinarith [mul_nonneg (by linarith : (0:ℚ) ≤ 31/20 - dx)
        (by linarith : (0:ℚ) ≤ dy + 163/100),
      mul_nonneg (by linarith : (0:ℚ) ≤ dx + 31/20)
        (by linarith : (0:ℚ) ≤ 163/100 - dy)]
  have m5l : -(5053/2000) ≤ dx * dy := by
    nlinarith [mul_nonneg (by linarith : (0:ℚ) ≤ 31/20 - dx)
        (by linarith : (0:ℚ) ≤ 163/100 - dy),
      mul_nonneg (by linarith : (0:ℚ) ≤ dx + 31/20)
        (by linarith : (0:ℚ) ≤ dy + 163/100)]
  have m6u : dx * dy ^ 2 ≤ 823639/200000 := by
    nlinarith [mul_nonneg (by linarith : (0:ℚ) ≤ 31/20 - dx) sy0, sy]
  have m6l : -(823639/200000) ≤ dx * dy ^ 2 := by
    nlinarith [mul_nonneg (by linarith : (0:ℚ) ≤ dx + 31/20) sy0, sy]
  have m7u : dx * dy ^ 3 ≤ 134253157/20000000 := by
    nlinarith [mul_nonneg (by linarith : (0:ℚ) ≤ 31/20 - dx)
        (by linarith : (0:ℚ) ≤ dy ^ 3 + 4330747/1000000),
      mul_nonneg (by linarith : (0:ℚ) ≤ dx + 31/20)
        (by linarith : (0:ℚ) ≤ 4330747/1000000 - dy ^ 3)]
  have m7l : -(134253157/20000000) ≤ dx * dy ^ 3 := by
    nlinarith [mul_nonneg (by linarith : (0:ℚ) ≤ 31/20 - dx)
        (by linarith : (0:ℚ) ≤ 4330747/1000000 - dy ^ 3),
      mul_nonneg (by linarith : (0:ℚ) ≤ dx + 31/20)
        (by linarith : (0:ℚ) ≤ dy ^ 3 + 4330747/1000000)]
  have m8u : dx ^ 3 * dy ≤ 4855933/800000 := by
    nlinarith [mul_nonneg (by linarith : (0:ℚ) ≤ 29791/8000 - dx ^ 3)
        (by linarith : (0:ℚ) ≤ dy + 163/100),
      mul_nonneg (by linarith : (0:ℚ) ≤ dx ^ 3 + 29791/8000)
        (by linarith : (0:ℚ) ≤ 163/100 - dy)]
  have m8l : -(4855933/800000) ≤ dx ^ 3 * dy := by
    nlinarith [mul_nonneg (by linarith : (0:ℚ) ≤ 29791/8000 - dx ^ 3)
        (by linarith : (0:ℚ) ≤ 163/100 - dy),
      mul_nonneg (by linarith : (0:ℚ) ≤ dx ^ 3 + 29791/8000)
        (by linarith : (0:ℚ) ≤ dy + 163/100)]
  have m9u : dx ^ 3 * dy ^ 2 ≤ 791517079/80000000 := by
    nlinarith [mul_nonneg (by linarith : (0:ℚ) ≤ 29791/8000 - dx ^ 3) sy0, sy]
  have m9l : -(791517079/80000000) ≤ dx ^ 3 * dy ^ 2 := by
    nlinarith [mul_nonneg (by linarith : (0:ℚ) ≤ dx ^ 3 + 29791/8000) sy0, sy]
  have mAu : dx * dy ^ 4 ≤ 21883264591/2000000000 := by
    nlinarith [mul_nonneg (by linarith : (0:ℚ) ≤ 31/20 - dx) sy40, sy4]
  have mAl : -(21883264591/2000000000) ≤ dx * dy ^ 4 := by
    nlinarith [mul_nonneg (by linarith : (0:ℚ) ≤ dx + 31/20) sy40, sy4]
  constructor <;>
    linarith [h1, h2, h3, h4, sx0, sy0, sx, sy, cx1, cx2, cy1, cy2, qx1, qx2,
      m5u, m5l, m6u, m6l, m7u, m7l, m8u, m8l, m9u, m9l, mAu, mAl]

/-- C10: for every input in the valid RD extent the returned latitude lies
within `[-2, 2]` and the returned longitude within `[-3, 3]`. -/
theorem rd_to_wgs84_output_bounds (x y : ℚ) (hx1 : 0 ≤ x) (hx2 : x ≤ 280000)
    (hy1 : 300000 ≤ y) (hy2 : y ≤ 625000) :
    -2 ≤ (rd_to_wgs84 x y).1 ∧ (rd_to_wgs84 x y).1 ≤ 2 ∧
      -3 ≤ (rd_to_wgs84 x y).2 ∧ (rd_to_wgs84 x y).2 ≤ 3 := by
  have hdx1 : -(31/20) ≤ (x - x0) * 1e-5 := by simp only [x0]; norm_num; linarith
  have hdx2 : (x - x0) * 1e-5 ≤ 5/4 := by simp only [x0]; norm_num; linarith
  have hdy1 : -(163/100) ≤ (y - y0) * 1e-5 := by simp only [y0]; norm_num; linarith
  have hdy2 : (y - y0) * 1e-5 ≤ 81/50 := by simp only [y0]; norm_num; linarith
  obtain ⟨l1, l2⟩ := latAcc_bounds _ _ hdx1 hdx2 hdy1 hdy2
  obtain ⟨o1, o2⟩ := lonAcc_bounds _ _ hdx1 hdx2 hdy1 hdy2
  rw [rd_to_wgs84_def]
  refine ⟨by linarith, by linarith, by linarith, by linarith⟩

/-- Witness for C10 at a concrete input inside the extent. -/
theorem rd_to_wgs84_output_bounds_witness :
    -2 ≤ (rd_to_wgs84 122700 487525).1 ∧ (rd_to_wgs84 122700 487525).1 ≤ 2 ∧
      -3 ≤ (rd_to_wgs84 122700 487525).2 ∧ (rd_to_wgs84 122700 487525).2 ≤ 3 :=
  rd_to_wgs84_output_bounds 122700 487525 (by norm_num) (by norm_num)
    (by norm_num) (by norm_num)

set_option maxHeartbeats 4000000 in
/-- On the RD extent the longitude accumulator is strictly increasing in
`dx`: the partial sum's growth is dominated by the 5260.52916 linear term. -/
lemma lonAcc_strictMono (u v w : ℚ) (hu1 : -(31/20) ≤ u) (huv : u < v)
    (hv2 : v ≤ 5/4) (hw1 : -(163/100) ≤ w) (hw2 : w ≤ 81/50) :
    seriesLoop Lp Lq Lpq u w lambda0 < seriesLoop Lp Lq Lpq v w lambda0 := by
  rw [lonLoop_eq, lonLoop_eq]
  have hu2 : u ≤ 5/4 := le_of_lt (lt_of_lt_of_le huv hv2)
  have hv1 : -(31/20) ≤ v := le_trans hu1 (le_of_lt huv)
  have hw2' : w ≤ 163/100 := by linarith
  have su0 : 0 ≤ u ^ 2 := sq_nonneg u
  have sv0 : 0 ≤ v ^ 2 := sq_nonneg v
  have sw0 : 0 ≤ w ^ 2 := sq_nonneg w
  have su : u ^ 2 ≤ 961/400 := by
    nlinarith [mul_nonneg (by linarith : (0:ℚ) ≤ u + 31/20)
      (by linarith : (0:ℚ) ≤ 31/20 - u)]
  have sv : v ^ 2 ≤ 961/400 := by
    nlinarith [mul_nonneg (by linarith : (0:ℚ) ≤ v + 31/20)
      (by linarith : (0:ℚ) ≤ 31/20 - v)]
  have sw : w ^ 2 ≤ 26569/10000 := by
    nlinarith [mul_nonneg (by linarith : (0:ℚ) ≤ w + 163/100)
      (by linarith : (0:ℚ) ≤ 163/100 - w)]
  have cw : -(4330747/1000000) ≤ w ^ 3 := by
    nlinarith [mul_nonneg (by linarith : (0:ℚ) ≤ w + 163/100) sw0, sw]
  have w40 : 0 ≤ w ^ 4 := by positivity
  have hq0 : 0 ≤ v ^ 2 + v * u + u ^ 2 := by
    nlinarith [sq_nonneg (u + v), sq_nonneg u, sq_nonneg v]
  have hq : v ^ 2 + v * u + u ^ 2 ≤ 2883/400 := by
    nlinarith [sq_nonneg (u - v), su, sv]
  have hwq : w * (v ^ 2 + v * u + u ^ 2) ≤ 4699329/40000 := by
    nlinarith [mul_nonneg (by linarith : (0:ℚ) ≤ 163/100 - w) hq0, hq]
  have hw2q : w ^ 2 * (v ^ 2 + v * u + u ^ 2) ≤ 76598427/4000000 := by
    nlinarith [mul_nonneg (by linarith : (0:ℚ) ≤ 26569/10000 - w ^ 2) hq0, hq]
  have hP5 : 0 ≤ v ^ 4 + v ^ 3 * u + v ^ 2 * u ^ 2 + v * u ^ 3 + u ^ 4 := by
    nlinarith [sq_nonneg (u ^ 2 + u * v / 2), sq_nonneg (u * v + 2 * v ^ 2 / 3),
      sq_nonneg (v ^ 2)]
  have hB : (5000:ℚ) ≤
      5260.52916 + 105.94684 * w + 2.45656 * w ^ 2 + 0.05594 * w ^ 3
        + 0.00128 * w ^ 4 - 0.81885 * (v ^ 2 + v * u + u ^ 2)
        - 0.05607 * (w * (v ^ 2 + v * u + u ^ 2))
        - 0.00256 * (w ^ 2 * (v ^ 2 + v * u + u ^ 2))
        - 0.00022 * (v + u)
        + 0.00026 * (v ^ 4 + v ^ 3 * u + v ^ 2 * u ^ 2 + v * u ^ 3 + u ^ 4) := by
    linarith [hw1, hw2, hu2, hv2, hu1, hv1, sw0, sw, cw, w40, hq0, hq, hwq, hw2q, hP5]
  nlinarith [mul_pos (show (0:ℚ) < v - u by linarith)
    (show (0:ℚ) <
        5260.52916 + 105.94684 * w + 2.45656 * w ^ 2 + 0.05594 * w ^ 3
          + 0.00128 * w ^ 4 - 0.81885 * (v ^ 2 + v * u + u ^ 2)
          - 0.05607 * (w * (v ^ 2 + v * u + u ^ 2))
          - 0.00256 * (w ^ 2 * (v ^ 2 + v * u + u ^ 2))
          - 0.00022 * (v + u)
          + 0.00026 * (v ^ 4 + v ^ 3 * u + v ^ 2 * u ^ 2 + v * u ^ 3 + u ^ 4)
      by linarith)]

/-- C8: within the Netherlands RD extent, for two points with the same `y`
and `x1 < x2`, the longitude returned at `x2` is strictly larger than at
`x1`: longitude is strictly increasing in `x`. -/
theorem lon_strictly_increasing_in_x (x₁ x₂ y : ℚ) (h1 : 0 ≤ x₁)
    (h2 : x₁ < x₂) (h3 : x₂ ≤ 280000) (h4 : 300000 ≤ y) (h5 : y ≤ 625000) :
    (rd_to_wgs84 x₁ y).2 < (rd_to_wgs84 x₂ y).2 := by
  have hu1 : -(31/20) ≤ (x₁ - x0) * 1e-5 := by simp only [x0]; norm_num; linarith
  have huv : (x₁ - x0) * 1e-5 < (x₂ - x0) * 1e-5 := by simp only [x0]; norm_num; linarith
  have hv2 : (x₂ - x0) * 1e-5 ≤ 5/4 := by simp only [x0]; norm_num; linarith
  have hw1 : -(163/100) ≤ (y - y0) * 1e-5 := by simp only [y0]; norm_num; linarith
  have hw2 : (y - y0) * 1e-5 ≤ 81/50 := by simp only [y0]; norm_num; linarith
  have key := lonAcc_strictMono _ _ _ hu1 huv hv2 hw1 hw2
  rw [rd_to_wgs84_def, rd_to_wgs84_def]
  simpa using by linarith [key]

/-- Witness for C8: a 100 m eastward step at the control point strictly
increases the returned longitude. -/
theorem lon_strictly_increasing_in_x_witness :
    (rd_to_wgs84 122700 487525).2 < (rd_to_wgs84 122800 487525).2 :=
  lon_strictly_increasing_in_x 122700 122800 487525 (by norm_num) (by norm_num)
    (by norm_num) (by norm_num) (by norm_num)

end WijkApp
